import Mathlib

/-!
# Windowed Selector Data Provider — shallow embedding

This file embeds the `ReactQuerySelectorDataProvider` class
(src/provider, TypeScript) into Lean 4 and proves the specified
properties of its operations `updateRawData`, `updateSelector`,
`applySelector`, `getData` and `getTotalCount`.

Modelling conventions:

* JavaScript object identity (`!==` on `Error` objects, selector
  functions, and opaque dependency values) is modelled by a `ref : Nat`
  tag carried by the corresponding Lean value; two runtime objects that
  are distinct get distinct tags, and identity comparison is equality
  on the embedded value.
* A selector that may `throw` is embedded as a function returning
  `Except String _`; the `String` is the thrown error's `.message`.
* `notify()` invokes every subscriber exactly once; since every call of
  the private `applySelector` ends in exactly one `notify()`, the public
  mutators return a `Bool` that is `true` exactly when `notify()` ran
  (equivalently, exactly when a recomputation ran).
* Item contents are dynamic values: real application data is an opaque
  `Content.atom`, while the sentinel objects fabricated by `getData`
  are string-keyed records (`Content.obj`), so that the exact field
  names the code writes (`__isPlaceholder`, `__isError`, `error`,
  `originalError`, `index`) are part of the model.
* JavaScript numbers used as indices are embedded as `Int` (the claims
  quantify over arbitrary integers).
-/

/-- A JavaScript `Error` object: identity tag plus `.message`. -/
structure JsError where
  ref : Nat
  message : String
deriving DecidableEq

/-- Primitive values that occur inside the sentinel objects that
`getData` fabricates. -/
inductive Prim where
  | pBool : Bool → Prim
  | pInt : Int → Prim
  | pStr : String → Prim
  | pErr : JsError → Prim
deriving DecidableEq

/-- The content slot of a list item: opaque application data
(`atom`, identity-tagged), or a fabricated string-keyed object. -/
inductive Content where
  | atom : Nat → Content
  | obj : List (String × Prim) → Content
deriving DecidableEq

/-- `ListItem` from `@mikrostack/vir`: `{ id: string, content, type? }`. -/
structure ListItem where
  id : String
  content : Content
  type : Option String := none
deriving DecidableEq

/-- An opaque dependency value, compared positionally by
identity/primitive equality (JS `!==`). -/
inductive Dep where
  | dBool : Bool → Dep
  | dInt : Int → Dep
  | dStr : String → Dep
  | dRef : Nat → Dep
deriving DecidableEq

/-- A selector function value: reference tag (JS function identity)
plus the function itself, which may throw (`Except.error msg`). -/
structure SelectorFn where
  ref : Nat
  fn : List ListItem → List Dep → Except String (List ListItem)

/-- The resolved options of the provider (constructor defaults:
`placeholderCount = 10`, the three flags `true`). -/
structure ProviderOptions where
  placeholderCount : Int
  showPlaceholdersWhileLoading : Bool
  showErrorItem : Bool
  enableChangeDetection : Bool

/-- The mutable fields of `ReactQuerySelectorDataProvider`. -/
structure ProviderState where
  rawItems : List ListItem
  selectedItems : List ListItem
  isLoading : Bool
  error : Option JsError
  options : ProviderOptions
  currentSelector : Option SelectorFn
  selectorDependencies : List Dep

/-- The wrapped error built in `applySelector`'s catch branch:
`new Error("Selector error: " + message)` (a fresh object; its tag is
fixed at 0 since no embedded comparison depends on it). -/
def wrapSelectorError (msg : String) : JsError :=
  ⟨0, "Selector error: " ++ msg⟩

/-- `applySelector` (private): apply the current selector to the raw
items, or pass the raw items through when no selector is set or the raw
sequence is empty; a thrown selector error is caught, clearing the
selected items and replacing the stored error with the wrapped one.
Every call ends with exactly one `notify()`. -/
def applySelector (s : ProviderState) : ProviderState :=
  match s.currentSelector with
  | some sel =>
      if 0 < s.rawItems.length then
        match sel.fn s.rawItems s.selectorDependencies with
        | Except.ok newSelectedItems => { s with selectedItems := newSelectedItems }
        | Except.error msg =>
            { s with selectedItems := [], error := some (wrapSelectorError msg) }
      else
        { s with selectedItems := s.rawItems }
  | none => { s with selectedItems := s.rawItems }

/-- `this.rawItems[0]?.id` — `undefined` (here `none`) on an empty list. -/
def firstId (l : List ListItem) : Option String :=
  l.head?.map (fun it => it.id)

/-- `this.rawItems[this.rawItems.length - 1]?.id`. -/
def lastId (l : List ListItem) : Option String :=
  l.getLast?.map (fun it => it.id)

/-- The `hasRawDataChanged` flag computed by `updateRawData`: loading or
error flag changed (by identity), or — with change detection enabled —
lengths differ, or the sequence is non-empty with a differing first or
last id; with change detection disabled, always `true`. -/
def hasRawDataChangedB (s : ProviderState) (items : List ListItem)
    (isLoading : Bool) (error : Option JsError) : Bool :=
  (decide (s.isLoading ≠ isLoading) || decide (s.error ≠ error)) ||
    (if s.options.enableChangeDetection then
      decide (s.rawItems.length ≠ items.length) ||
        (decide (0 < items.length) &&
          (decide (firstId s.rawItems ≠ firstId items) ||
            decide (lastId s.rawItems ≠ lastId items)))
    else true)

/-- `updateRawData(items, isLoading, error)`: if `hasRawDataChanged`,
store the items and both flags and reapply the selector (which
notifies); otherwise do nothing. The `Bool` is `true` exactly when the
update was applied (= recomputation ran = subscribers were notified). -/
def updateRawData (s : ProviderState) (items : List ListItem)
    (isLoading : Bool) (error : Option JsError) : ProviderState × Bool :=
  if hasRawDataChangedB s items isLoading error then
    (applySelector { s with rawItems := items, isLoading := isLoading, error := error }, true)
  else
    (s, false)

/-- `shallowEqual` (private): length check, then positional comparison
by identity/primitive equality. -/
def shallowEqual (a b : List Dep) : Bool :=
  if a.length ≠ b.length then false
  else (a.zip b).all fun p => p.1 == p.2

/-- JS `this.currentSelector !== selector` negated: `null === null`
holds, function values compare by reference. -/
def selectorRefEq : Option SelectorFn → Option SelectorFn → Bool
  | none, none => true
  | some a, some b => a.ref == b.ref
  | _, _ => false

/-- `updateSelector(selector, dependencies)`: if the selector reference
or the dependency list (shallowly) changed, store both and reapply the
selector (which notifies); otherwise do nothing. -/
def updateSelector (s : ProviderState) (selector : Option SelectorFn)
    (dependencies : List Dep) : ProviderState × Bool :=
  let selectorChanged := !(selectorRefEq s.currentSelector selector)
  let dependenciesChanged := !(shallowEqual s.selectorDependencies dependencies)
  if selectorChanged || dependenciesChanged then
    (applySelector { s with currentSelector := selector, selectorDependencies := dependencies }, true)
  else
    (s, false)

/-- A placeholder sentinel item as fabricated by `getData`:
`{ id: "__placeholder-" + idx, content: { __isPlaceholder: true, index: idx } }`. -/
def placeholderItem (idx : Int) : ListItem :=
  { id := "__placeholder-" ++ toString idx,
    content := Content.obj [("__isPlaceholder", Prim.pBool true), ("index", Prim.pInt idx)] }

/-- The error sentinel item as fabricated by `getData`:
`{ id: "__error-item", content: { __isError: true, error: e.message, originalError: e } }`. -/
def errorItem (e : JsError) : ListItem :=
  { id := "__error-item",
    content := Content.obj [("__isError", Prim.pBool true), ("error", Prim.pStr e.message),
      ("originalError", Prim.pErr e)] }

/-- Guard of `getData`/`getTotalCount`'s loading branch:
`isLoading && selectedItems.length === 0 && showPlaceholdersWhileLoading`. -/
def loadingEmpty (s : ProviderState) : Prop :=
  s.isLoading = true ∧ s.selectedItems.length = 0 ∧
    s.options.showPlaceholdersWhileLoading = true

instance (s : ProviderState) : Decidable (loadingEmpty s) := by
  unfold loadingEmpty; infer_instance

/-- Guard of `getData`/`getTotalCount`'s error branch:
`error && selectedItems.length === 0 && showErrorItem`. -/
def errorEmpty (s : ProviderState) : Prop :=
  s.error.isSome = true ∧ s.selectedItems.length = 0 ∧
    s.options.showErrorItem = true

instance (s : ProviderState) : Decidable (errorEmpty s) := by
  unfold errorEmpty; infer_instance

/-- `Array.prototype.slice(b, e)` as used in `getData`, where the
guards ensure `0 ≤ b`. -/
def sliceJs (l : List ListItem) (b e : Int) : List ListItem :=
  (l.drop b.toNat).take (e - b).toNat

/-- `getData(startIndex, endIndex)`: placeholder branch, then error
branch, then clamped inclusive slice of the selected items.
`Array.from({length: n}, ...)` with a non-positive `n` yields `[]`
(hence `Int.toNat`). -/
def getData (s : ProviderState) (startIndex endIndex : Int) : List ListItem :=
  if loadingEmpty s then
    (List.range (min (endIndex - startIndex + 1) s.options.placeholderCount).toNat).map
      (fun i : Nat => placeholderItem (startIndex + (i : Int)))
  else if h : errorEmpty s then
    [errorItem (s.error.get h.1)]
  else
    let safeStart : Int := max 0 startIndex
    let safeEnd : Int := min ((s.selectedItems.length : Int) - 1) endIndex
    if safeStart > safeEnd ∨ (s.selectedItems.length : Int) ≤ safeStart then []
    else sliceJs s.selectedItems safeStart (safeEnd + 1)

/-- `getTotalCount()`: the same three-way branch as `getData`. -/
def getTotalCount (s : ProviderState) : Int :=
  if loadingEmpty s then
    s.options.placeholderCount
  else if errorEmpty s then
    1
  else
    (s.selectedItems.length : Int)

/-- The change condition of claim C1, stated propositionally: stored
loading flag differs, or stored error differs by identity, or lengths
differ, or the new sequence is non-empty with a differing first or
last id. -/
def rawDataChanged (s : ProviderState) (items : List ListItem)
    (isLoading : Bool) (error : Option JsError) : Prop :=
  s.isLoading ≠ isLoading ∨ s.error ≠ error ∨
    s.rawItems.length ≠ items.length ∨
    (items ≠ [] ∧ (firstId s.rawItems ≠ firstId items ∨ lastId s.rawItems ≠ lastId items))

instance (s : ProviderState) (items : List ListItem) (l : Bool) (e : Option JsError) :
    Decidable (rawDataChanged s items l e) := by
  unfold rawDataChanged; infer_instance

/-! ## Helper lemmas -/

lemma applySelector_rawItems (s : ProviderState) :
    (applySelector s).rawItems = s.rawItems := by
  unfold applySelector
  repeat' split
  all_goals rfl

lemma applySelector_isLoading (s : ProviderState) :
    (applySelector s).isLoading = s.isLoading := by
  unfold applySelector
  repeat' split
  all_goals rfl

lemma applySelector_options (s : ProviderState) :
    (applySelector s).options = s.options := by
  unfold applySelector
  repeat' split
  all_goals rfl

lemma zipAll_eq (a b : List Dep) (h : a.length = b.length) :
    ((a.zip b).all fun p => p.1 == p.2) = true ↔ a = b := by
  induction a generalizing b with
  | nil =>
    cases b with
    | nil => simp
    | cons y ys => simp at h
  | cons x xs ih =>
    cases b with
    | nil => simp at h
    | cons y ys =>
      simp only [List.length_cons, Nat.add_right_cancel_iff] at h
      simp [List.all_cons, Bool.and_eq_true, beq_iff_eq, ih ys h, List.cons.injEq]

lemma shallowEqual_iff (a b : List Dep) : shallowEqual a b = true ↔ a = b := by
  unfold shallowEqual
  by_cases h : a.length = b.length
  · rw [if_neg (not_not_intro h)]
    exact zipAll_eq a b h
  · rw [if_pos h]
    simp only [Bool.false_eq_true, false_iff]
    exact fun he => h (by rw [he])

lemma hasRawDataChangedB_iff (s : ProviderState) (items : List ListItem)
    (l : Bool) (e : Option JsError) (hcd : s.options.enableChangeDetection = true) :
    hasRawDataChangedB s items l e = true ↔ rawDataChanged s items l e := by
  unfold hasRawDataChangedB rawDataChanged
  simp only [hcd, if_true, Bool.or_eq_true, Bool.and_eq_true, decide_eq_true_eq,
    List.length_pos]
  tauto

lemma sliceJs_full (l : List ListItem) : sliceJs l 0 (l.length : Int) = l := by
  unfold sliceJs
  simp

lemma getData_normal (s : ProviderState) (a b : Int)
    (h1 : ¬ loadingEmpty s) (h2 : ¬ errorEmpty s) :
    getData s a b =
      if max 0 a > min ((s.selectedItems.length : Int) - 1) b ∨
          (s.selectedItems.length : Int) ≤ max 0 a then []
      else sliceJs s.selectedItems (max 0 a)
        (min ((s.selectedItems.length : Int) - 1) b + 1) := by
  unfold getData
  rw [if_neg h1, dif_neg h2]

/-! ## Sample values used by witnesses and counterexamples -/

def optsDefault : ProviderOptions := ⟨10, true, true, true⟩

def opts5 : ProviderOptions := ⟨5, true, true, true⟩

def itemA : ListItem := ⟨"a", Content.atom 0, none⟩

def itemB : ListItem := ⟨"b", Content.atom 1, none⟩

def itemC : ListItem := ⟨"c", Content.atom 2, none⟩

def loadingState : ProviderState := ⟨[], [], true, none, opts5, none, []⟩

def errBoom : JsError := ⟨1, "boom"⟩

def errorState : ProviderState := ⟨[], [], false, some errBoom, optsDefault, none, []⟩

def threeState : ProviderState :=
  ⟨[itemA, itemB, itemC], [itemA, itemB, itemC], false, none, optsDefault, none, []⟩

/-! ## Claim theorems -/

/-- C5: in the normal (non-sentinel) state, `getData` clamps the start
up to 0 and the end down to `len - 1`, returns the empty sequence when
the clamped start exceeds the clamped end or is at least `len`, and
otherwise returns the inclusive slice from clamped start to clamped
end; in particular on a derived sequence of length 3,
`getData (-5) 1000` returns exactly all 3 items and `getData 10 20`
returns the empty sequence. -/
theorem getData_range_clamping (s : ProviderState) (startIndex endIndex : Int)
    (h1 : ¬ loadingEmpty s) (h2 : ¬ errorEmpty s) :
    (max 0 startIndex > min ((s.selectedItems.length : Int) - 1) endIndex ∨
        (s.selectedItems.length : Int) ≤ max 0 startIndex →
      getData s startIndex endIndex = []) ∧
    (max 0 startIndex ≤ min ((s.selectedItems.length : Int) - 1) endIndex →
      getData s startIndex endIndex =
        sliceJs s.selectedItems (max 0 startIndex)
          (min ((s.selectedItems.length : Int) - 1) endIndex + 1)) ∧
    (s.selectedItems.length = 3 →
      getData s (-5) 1000 = s.selectedItems ∧ getData s 10 20 = []) := by
  refine ⟨?_, ?_, ?_⟩
  · intro h
    rw [getData_normal s startIndex endIndex h1 h2, if_pos h]
  · intro hle
    have hlt : max 0 startIndex < (s.selectedItems.length : Int) := by
      have : min ((s.selectedItems.length : Int) - 1) endIndex ≤
          (s.selectedItems.length : Int) - 1 := min_le_left _ _
      omega
    rw [getData_normal s startIndex endIndex h1 h2, if_neg (by omega)]
  · intro h3
    constructor
    · rw [getData_normal s (-5) 1000 h1 h2, h3]
      norm_num
      have hlen : ((s.selectedItems.length : Int)) = 3 := by rw [h3]; norm_num
      rw [← hlen]
      exact sliceJs_full s.selectedItems
    · rw [getData_normal s 10 20 h1 h2, h3]
      rw [if_pos (by norm_num)]

theorem getData_range_clamping_witness :
    getData threeState (-5) 1000 = threeState.selectedItems ∧
      getData threeState 10 20 = [] :=
  (getData_range_clamping threeState (-5) 1000 (by decide) (by decide)).2.2 (by decide)

/-- C8: whenever recomputation runs with no selector set, or with the
raw sequence empty, the derived sequence becomes the raw sequence
itself (pass-through; in JS the very same array, modelled here by
equality of the embedded sequences); consequently with
`currentSelector = null`, for every non-empty raw sequence, `getData`
over the full range returns the raw items themselves. -/
theorem applySelector_pass_through (s : ProviderState) :
    ((s.currentSelector = none ∨ s.rawItems = []) →
      (applySelector s).selectedItems = s.rawItems) ∧
    (s.currentSelector = none → s.rawItems ≠ [] →
      getData (applySelector s) 0 ((s.rawItems.length : Int) - 1) = s.rawItems) := by
  constructor
  · rintro (hsel | hraw)
    · unfold applySelector
      rw [hsel]
    · unfold applySelector
      cases hsel : s.currentSelector with
      | none => rfl
      | some sel =>
        simp [hraw]
  · intro hsel hne
    have hps : applySelector s = { s with selectedItems := s.rawItems } := by
      unfold applySelector
      rw [hsel]
    rw [hps]
    have hpos : 0 < s.rawItems.length := List.length_pos.mpr hne
    have h1 : ¬ loadingEmpty { s with selectedItems := s.rawItems } := by
      intro h
      have hlen : s.rawItems.length = 0 := h.2.1
      omega
    have h2 : ¬ errorEmpty { s with selectedItems := s.rawItems } := by
      intro h
      have hlen : s.rawItems.length = 0 := h.2.1
      omega
    rw [getData_normal _ 0 ((s.rawItems.length : Int) - 1) h1 h2]
    show (if max (0 : Int) 0 > min ((s.rawItems.length : Int) - 1) ((s.rawItems.length : Int) - 1) ∨
        (s.rawItems.length : Int) ≤ max (0 : Int) 0 then ([] : List ListItem)
      else sliceJs s.rawItems (max 0 0)
        (min ((s.rawItems.length : Int) - 1) ((s.rawItems.length : Int) - 1) + 1)) = s.rawItems
    rw [max_self, min_self, if_neg (by omega)]
    have hmm : (s.rawItems.length : Int) - 1 + 1 = (s.rawItems.length : Int) := by omega
    rw [hmm]
    exact sliceJs_full s.rawItems

def passState : ProviderState := ⟨[itemA, itemB], [], false, none, optsDefault, none, []⟩

theorem applySelector_pass_through_witness :
    (applySelector passState).selectedItems = passState.rawItems ∧
      getData (applySelector passState) 0 ((passState.rawItems.length : Int) - 1) =
        passState.rawItems :=
  ⟨(applySelector_pass_through passState).1 (Or.inl rfl),
   (applySelector_pass_through passState).2 rfl (by decide)⟩

/-- C3 (amended): while loading with an empty derived sequence and
`showPlaceholdersWhileLoading`, `getData(startIndex, endIndex)` returns
exactly `min(endIndex - startIndex + 1, placeholderCount)` placeholder
items (when that quantity is positive); the `i`-th returned item has id
`"__placeholder-{startIndex+i}"` and content
`{ __isPlaceholder: true, index: startIndex+i }` — the code stores the
marker under the key `__isPlaceholder`, not `isPlaceholder`. -/
theorem getData_placeholders (s : ProviderState) (startIndex endIndex : Int)
    (h1 : loadingEmpty s)
    (hpos : 0 < min (endIndex - startIndex + 1) s.options.placeholderCount) :
    ((getData s startIndex endIndex).length : Int) =
        min (endIndex - startIndex + 1) s.options.placeholderCount ∧
    ∀ i : Nat, i < (getData s startIndex endIndex).length →
      (getData s startIndex endIndex)[i]? =
        some { id := "__placeholder-" ++ toString (startIndex + (i : Int)),
               content := Content.obj [("__isPlaceholder", Prim.pBool true),
                 ("index", Prim.pInt (startIndex + (i : Int)))],
               type := none } := by
  have hdef : getData s startIndex endIndex =
      (List.range (min (endIndex - startIndex + 1) s.options.placeholderCount).toNat).map
        (fun i : Nat => placeholderItem (startIndex + (i : Int))) := by
    unfold getData
    rw [if_pos h1]
  constructor
  · rw [hdef]
    simp only [List.length_map, List.length_range]
    omega
  · intro i hi
    rw [hdef] at hi ⊢
    simp only [List.length_map, List.length_range] at hi
    simp only [List.getElem?_map, List.getElem?_range hi, Option.map_some']
    rfl

theorem getData_placeholders_witness :
    (0 : Int) < min (2 - 0 + 1) loadingState.options.placeholderCount ∧
      ((getData loadingState 0 2).length : Int) =
        min (2 - 0 + 1) loadingState.options.placeholderCount :=
  ⟨by decide, (getData_placeholders loadingState 0 2 (by decide) (by decide)).1⟩

/-- C3 counterexample: the placeholder content fabricated by the code
keys its marker as `__isPlaceholder`; the content `{ isPlaceholder:
true, index: 0 }` stated by the claim is not what `getData` returns. -/
theorem getData_placeholders_cex :
    getData loadingState 0 0 =
      [{ id := "__placeholder-0",
         content := Content.obj [("__isPlaceholder", Prim.pBool true), ("index", Prim.pInt 0)],
         type := none }] ∧
    ¬ (getData loadingState 0 0 =
      [{ id := "__placeholder-0",
         content := Content.obj [("isPlaceholder", Prim.pBool true), ("index", Prim.pInt 0)],
         type := none }]) := by
  decide

/-- C4 (amended): with a non-null error, an empty derived sequence,
`showErrorItem` enabled and the loading-placeholder branch not
applying, `getData` returns exactly one item for any requested range
whatsoever, with id `"__error-item"` and content
`{ __isError: true, error: message, originalError }` — the code keys
the marker as `__isError` (not `isError`) and stores the error's
message under the key `error` (not `message`); `originalError` is the
stored error itself. -/
theorem getData_error_item (s : ProviderState) (e : JsError) (startIndex endIndex : Int)
    (he : s.error = some e) (hempty : s.selectedItems.length = 0)
    (hshow : s.options.showErrorItem = true)
    (h1 : ¬ loadingEmpty s) :
    getData s startIndex endIndex =
      [{ id := "__error-item",
         content := Content.obj [("__isError", Prim.pBool true),
           ("error", Prim.pStr e.message), ("originalError", Prim.pErr e)],
         type := none }] := by
  have h2 : errorEmpty s := ⟨by rw [he]; rfl, hempty, hshow⟩
  unfold getData
  rw [if_neg h1, dif_pos h2]
  simp only [he, Option.get_some, errorItem]

theorem getData_error_item_witness :
    getData errorState (-3) 17 =
      [{ id := "__error-item",
         content := Content.obj [("__isError", Prim.pBool true),
           ("error", Prim.pStr errBoom.message), ("originalError", Prim.pErr errBoom)],
         type := none }] :=
  getData_error_item errorState errBoom (-3) 17 rfl rfl rfl (by decide)

/-- C4 counterexample: the error item's content keys are `__isError`
and `error`; the content `{ isError: true, message, originalError }`
stated by the claim is not what `getData` returns. -/
theorem getData_error_item_cex :
    getData errorState 0 5 =
      [{ id := "__error-item",
         content := Content.obj [("__isError", Prim.pBool true),
           ("error", Prim.pStr "boom"), ("originalError", Prim.pErr errBoom)],
         type := none }] ∧
    ¬ (getData errorState 0 5 =
      [{ id := "__error-item",
         content := Content.obj [("isError", Prim.pBool true),
           ("message", Prim.pStr "boom"), ("originalError", Prim.pErr errBoom)],
         type := none }]) := by
  decide

/-- C6: when loading with a non-null error, an empty derived sequence
and both sentinel flags enabled, `getData` returns placeholder items
and never the error item — the loading-placeholder branch is checked
before the error branch. -/
theorem getData_sentinel_priority (s : ProviderState) (e : JsError) (startIndex endIndex : Int)
    (hl : s.isLoading = true) (he : s.error = some e)
    (hempty : s.selectedItems.length = 0)
    (hp : s.options.showPlaceholdersWhileLoading = true)
    (hse : s.options.showErrorItem = true) :
    getData s startIndex endIndex =
      (List.range (min (endIndex - startIndex + 1) s.options.placeholderCount).toNat).map
        (fun i : Nat => placeholderItem (startIndex + (i : Int))) ∧
    ∀ it ∈ getData s startIndex endIndex, it ≠ errorItem e := by
  have h1 : loadingEmpty s := ⟨hl, hempty, hp⟩
  have hdef : getData s startIndex endIndex =
      (List.range (min (endIndex - startIndex + 1) s.options.placeholderCount).toNat).map
        (fun i : Nat => placeholderItem (startIndex + (i : Int))) := by
    unfold getData
    rw [if_pos h1]
  refine ⟨hdef, ?_⟩
  intro it hit
  rw [hdef] at hit
  simp only [List.mem_map] at hit
  obtain ⟨i, _, rfl⟩ := hit
  intro hcontra
  have hid := congrArg (fun it => it.id.length) hcontra
  simp only [placeholderItem, errorItem] at hid
  rw [String.length_append] at hid
  have h14 : "__placeholder-".length = 14 := rfl
  have h12 : "__error-item".length = 12 := rfl
  omega

def bothState : ProviderState := ⟨[], [], true, some errBoom, opts5, none, []⟩

theorem getData_sentinel_priority_witness :
    getData bothState 0 2 = [placeholderItem 0, placeholderItem 1, placeholderItem 2] ∧
      errorItem errBoom ∉ getData bothState 0 2 := by
  have h := getData_sentinel_priority bothState errBoom 0 2 rfl rfl rfl rfl rfl
  exact ⟨by rw [h.1]; decide, fun hm => h.2 _ hm rfl⟩

/-- C9: `getTotalCount` follows the same three-way branch, in the same
priority order, as `getData`: `placeholderCount` while
loading-and-empty-and-show, `1` while error-and-empty-and-show, and
otherwise the derived sequence's length; each branch's count matches
the length of the data `getData` actually returns there. -/
theorem getTotalCount_three_way (s : ProviderState) :
    (loadingEmpty s → getTotalCount s = s.options.placeholderCount ∧
      (0 < s.options.placeholderCount →
        ((getData s 0 (s.options.placeholderCount - 1)).length : Int) = getTotalCount s)) ∧
    (¬ loadingEmpty s → errorEmpty s → getTotalCount s = 1 ∧
      ∀ a b : Int, ((getData s a b).length : Int) = getTotalCount s) ∧
    (¬ loadingEmpty s → ¬ errorEmpty s →
      getTotalCount s = (s.selectedItems.length : Int) ∧
      ((getData s 0 ((s.selectedItems.length : Int) - 1)).length : Int) = getTotalCount s) := by
  refine ⟨?_, ?_, ?_⟩
  · intro h1
    have ht : getTotalCount s = s.options.placeholderCount := by
      unfold getTotalCount
      rw [if_pos h1]
    refine ⟨ht, ?_⟩
    intro hpc
    have hdef : getData s 0 (s.options.placeholderCount - 1) =
        (List.range (min (s.options.placeholderCount - 1 - 0 + 1)
            s.options.placeholderCount).toNat).map
          (fun i : Nat => placeholderItem (0 + (i : Int))) := by
      unfold getData
      rw [if_pos h1]
    rw [hdef, ht]
    simp only [List.length_map, List.length_range]
    omega
  · intro h1 h2
    have ht : getTotalCount s = 1 := by
      unfold getTotalCount
      rw [if_neg h1, if_pos h2]
    refine ⟨ht, ?_⟩
    intro a b
    have hdata : getData s a b = [errorItem (s.error.get h2.1)] := by
      unfold getData
      rw [if_neg h1, dif_pos h2]
    rw [hdata, ht]
    rfl
  · intro h1 h2
    have ht : getTotalCount s = (s.selectedItems.length : Int) := by
      unfold getTotalCount
      rw [if_neg h1, if_neg h2]
    refine ⟨ht, ?_⟩
    rw [ht]
    by_cases hz : s.selectedItems.length = 0
    · rw [getData_normal s 0 _ h1 h2, if_pos (by omega)]
      simp [hz]
    · have hpos : 0 < s.selectedItems.length := Nat.pos_of_ne_zero hz
      rw [getData_normal s 0 ((s.selectedItems.length : Int) - 1) h1 h2]
      rw [max_self, min_self, if_neg (by omega)]
      have hmm : (s.selectedItems.length : Int) - 1 + 1 = (s.selectedItems.length : Int) := by
        omega
      rw [hmm, sliceJs_full]

theorem getTotalCount_three_way_witness :
    getTotalCount loadingState = 5 := by
  have h := (getTotalCount_three_way loadingState).1 (by decide)
  rw [h.1]
  decide

/-- C7: a call `updateSelector(S, deps)` with `S` identical by
reference to the stored selector and `deps` positionally equal to the
stored dependency list is a complete no-op: no recomputation, no
notification, the stored state unchanged; if the selector reference
differs or the dependency lists differ (in length or at any position),
the new selector and dependencies are stored and the derived sequence
is recomputed, with notification. -/
theorem updateSelector_dependency_gate (s : ProviderState)
    (selector : Option SelectorFn) (dependencies : List Dep) :
    (selectorRefEq s.currentSelector selector = true →
      s.selectorDependencies = dependencies →
      updateSelector s selector dependencies = (s, false)) ∧
    (selectorRefEq s.currentSelector selector = false ∨
        s.selectorDependencies ≠ dependencies →
      updateSelector s selector dependencies =
        (applySelector
          { s with currentSelector := selector, selectorDependencies := dependencies },
         true)) := by
  constructor
  · intro hsel hdeps
    have hse : shallowEqual s.selectorDependencies dependencies = true :=
      (shallowEqual_iff _ _).mpr hdeps
    simp [updateSelector, hsel, hse]
  · rintro (hsel | hdeps)
    · simp [updateSelector, hsel]
    · have hse : shallowEqual s.selectorDependencies dependencies = false := by
        cases hb : shallowEqual s.selectorDependencies dependencies
        · rfl
        · exact absurd ((shallowEqual_iff _ _).mp hb) hdeps
      simp [updateSelector, hse]

def idSel : SelectorFn := ⟨2, fun items _ => Except.ok items⟩

def selState : ProviderState :=
  ⟨[itemA], [itemA], false, none, optsDefault, some idSel, [Dep.dInt 4]⟩

theorem updateSelector_dependency_gate_witness :
    updateSelector selState (some idSel) [Dep.dInt 4] = (selState, false) :=
  (updateSelector_dependency_gate selState (some idSel) [Dep.dInt 4]).1 (by decide) rfl

lemma applySelector_throw (s : ProviderState) (sel : SelectorFn) (msg : String)
    (hsel : s.currentSelector = some sel)
    (hne : s.rawItems ≠ [])
    (hthrow : sel.fn s.rawItems s.selectorDependencies = Except.error msg) :
    applySelector s = { s with selectedItems := [], error := some (wrapSelectorError msg) } := by
  unfold applySelector
  rw [hsel]
  dsimp only
  rw [if_pos (List.length_pos.mpr hne), hthrow]

lemma updateRawData_noop_of_matching (t : ProviderState) (items : List ListItem)
    (l : Bool) (e : Option JsError)
    (hcd : t.options.enableChangeDetection = true)
    (hraw : t.rawItems = items) (hload : t.isLoading = l) (herr : t.error = e) :
    updateRawData t items l e = (t, false) := by
  have hcond : hasRawDataChangedB t items l e = false := by
    unfold hasRawDataChangedB
    rw [hcd, hraw, hload, herr]
    simp
  unfold updateRawData
  rw [if_neg (by rw [hcond]; exact Bool.false_ne_true)]

/-- C2: a selector that throws during recomputation does not let the
exception escape `updateRawData` or `updateSelector`: the derived
sequence becomes empty, the provider error becomes the wrapped error
carrying the original message, subscribers are still notified (the
notification flag is `true`), and the raw items are exactly the ones
the selector was applied to (the items just stored by the call). -/
theorem selector_throw_isolated (s : ProviderState) (sel : SelectorFn) (msg : String)
    (items : List ListItem) (l : Bool) (e : Option JsError) (deps : List Dep) :
    (s.currentSelector = some sel → items ≠ [] →
      sel.fn items s.selectorDependencies = Except.error msg →
      hasRawDataChangedB s items l e = true →
      updateRawData s items l e =
        ({ s with rawItems := items, isLoading := l, selectedItems := [], error := some (wrapSelectorError msg) },
         true)) ∧
    ((selectorRefEq s.currentSelector (some sel) = false ∨ s.selectorDependencies ≠ deps) →
      s.rawItems ≠ [] →
      sel.fn s.rawItems deps = Except.error msg →
      updateSelector s (some sel) deps =
        ({ s with currentSelector := some sel, selectorDependencies := deps, selectedItems := [], error := some (wrapSelectorError msg) },
         true)) ∧
    (wrapSelectorError msg).message = "Selector error: " ++ msg := by
  refine ⟨?_, ?_, rfl⟩
  · intro hsel hne hthrow hchanged
    unfold updateRawData
    rw [if_pos hchanged]
    have happ := applySelector_throw
      { s with rawItems := items, isLoading := l, error := e } sel msg hsel hne hthrow
    rw [happ]
  · intro hchanged hne hthrow
    have hcond : (!(selectorRefEq s.currentSelector (some sel)) ||
        !(shallowEqual s.selectorDependencies deps)) = true := by
      rcases hchanged with h | h
      · rw [h]
        rfl
      · have hse : shallowEqual s.selectorDependencies deps = false := by
          cases hb : shallowEqual s.selectorDependencies deps
          · rfl
          · exact absurd ((shallowEqual_iff _ _).mp hb) h
        rw [hse]
        simp
    have happ := applySelector_throw
      { s with currentSelector := some sel, selectorDependencies := deps } sel msg rfl hne hthrow
    simp only [updateSelector]
    rw [if_pos hcond, happ]

def throwSel : SelectorFn := ⟨3, fun _ _ => Except.error "boom"⟩

def throwState : ProviderState := ⟨[], [], false, none, optsDefault, some throwSel, []⟩

theorem selector_throw_isolated_witness :
    updateRawData throwState [itemA] false none =
      ({ throwState with rawItems := [itemA], isLoading := false, selectedItems := [], error := some (wrapSelectorError "boom") },
       true) :=
  (selector_throw_isolated throwState throwSel "boom" [itemA] false none []).1
    rfl (by decide) rfl (by decide)

/-- C1 (amended): with change detection enabled, `updateRawData` stores
the new items and flags and recomputes (notifying) exactly when the
stored loading flag differs, or the stored error differs by identity,
or the stored raw length differs from the new length, or the new
sequence is non-empty with a differing first or last id; in all other
cases the call is a no-op with no notification. Consequently, provided
the first call's recomputation did not replace the stored error (as a
throwing selector would), a second call with the same items and flags
is a no-op with no second recomputation or notification. -/
theorem updateRawData_change_detection (s : ProviderState) (items : List ListItem)
    (l : Bool) (e : Option JsError)
    (hcd : s.options.enableChangeDetection = true) :
    (rawDataChanged s items l e →
      updateRawData s items l e =
        (applySelector { s with rawItems := items, isLoading := l, error := e }, true)) ∧
    (¬ rawDataChanged s items l e → updateRawData s items l e = (s, false)) ∧
    ((updateRawData s items l e).1.error = e →
      updateRawData (updateRawData s items l e).1 items l e =
        ((updateRawData s items l e).1, false)) := by
  refine ⟨?_, ?_, ?_⟩
  · intro h
    unfold updateRawData
    rw [if_pos ((hasRawDataChangedB_iff s items l e hcd).mpr h)]
  · intro h
    unfold updateRawData
    rw [if_neg (fun hb => h ((hasRawDataChangedB_iff s items l e hcd).mp hb))]
  · intro h3
    by_cases hb : hasRawDataChangedB s items l e = true
    · have hfst : updateRawData s items l e =
          (applySelector { s with rawItems := items, isLoading := l, error := e }, true) := by
        unfold updateRawData
        rw [if_pos hb]
      rw [hfst] at h3 ⊢
      exact updateRawData_noop_of_matching _ items l e
        (by rw [applySelector_options]; exact hcd)
        (by rw [applySelector_rawItems])
        (by rw [applySelector_isLoading])
        h3
    · have hfst : updateRawData s items l e = (s, false) := by
        unfold updateRawData
        rw [if_neg hb]
      rw [hfst] at h3 ⊢
      exact hfst

theorem updateRawData_change_detection_witness :
    updateRawData threeState [itemA, itemB, itemC] false none = (threeState, false) :=
  ((updateRawData_change_detection threeState [itemA, itemB, itemC] false none rfl).2.1)
    (by decide)

/-- C1 counterexample: with change detection enabled and a throwing
selector installed, a second `updateRawData` call with arguments
identical to the first (same flags, same items, hence equal length and
endpoint ids) still recomputes and notifies — the first call replaced
the stored error with the wrapped selector error, so the error-identity
check fires again. -/
theorem updateRawData_second_call_cex :
    throwState.options.enableChangeDetection = true ∧
    (updateRawData (updateRawData throwState [itemA] false none).1 [itemA] false none).2
      = true := by
  exact ⟨rfl, rfl⟩
